import Mathlib

/-!
Verification development for the node-red-opc-server repository.

This file shallowly embeds the resource-liveness layer of the repository:
the token freshness cache of `login.js` (expiry policy, login response
handling, context store updates, background poll) and the connection
lifecycle manager and request dispatcher of `opcua-client-nipper.js`
(reconnect scheduling, terminal shutdown, read/write resolution and
variant type coercion).  Times are modelled as integer milliseconds;
JavaScript runtime primitives that the code calls but does not define
(`Date.parse`, `Number` on strings) are passed in as explicit function
parameters.
-/

namespace OpcRepo

/-- JSON-like JavaScript values as they occur in parsed login responses
and in the shared context store. -/
inductive JVal where
  | jstr (s : String)
  | jnum (n : Int)
  | jbool (b : Bool)
  | jnull
deriving DecidableEq, Repr

/-- JavaScript truthiness of an optional value: `none` models
`undefined`; empty strings, `0`, `false` and `null` are falsy. -/
def truthy : Option JVal → Bool
  | none => false
  | some (JVal.jstr s) => s != ""
  | some (JVal.jnum n) => n != 0
  | some (JVal.jbool b) => b
  | some JVal.jnull => false

/-- JavaScript `a || b`: the left operand if truthy, else the right. -/
def jsOr (a b : Option JVal) : Option JVal :=
  if truthy a then a else b

/-- JavaScript `v || null`: the value if truthy, else `null` (modelled as
`none`, which the rest of the embedding treats the same way). -/
def jsOrNull (v : Option JVal) : Option JVal :=
  if truthy v then v else none

/-- External JavaScript runtime primitives used by `login.js`:
`parseDate` models `Date.parse` (`none` is `NaN`), `parseNum` models
`Number` applied to a string (`none` is `NaN`). -/
structure JsRuntime where
  parseDate : String → Option Int
  parseNum : String → Option Int

/-- JavaScript `Number(v)` coercion on the modelled values; `none` models
`NaN`. -/
def toNumber (R : JsRuntime) : JVal → Option Int
  | JVal.jnum n => some n
  | JVal.jstr s => R.parseNum s
  | JVal.jbool b => some (if b then 1 else 0)
  | JVal.jnull => some 0

namespace Login

/-- Safety margin before renewal, in seconds (`SKEW_SECONDS` in
`login.js`). -/
def SKEW_SECONDS : Int := 60

/-- Fallback token lifetime in seconds when the server returns no expiry
(`DEFAULT_TTL_SECONDS` in `login.js`). -/
def DEFAULT_TTL_SECONDS : Int := 30 * 60

/-- Fields of `body.payload` that `login.js` inspects; `none` models an
absent field. -/
structure Payload where
  sessiontoken : Option JVal := none
  expiresAt : Option JVal := none
  expireAt : Option JVal := none
  validUntil : Option JVal := none
  ttl : Option JVal := none
  expiresIn : Option JVal := none
deriving DecidableEq, Repr

/-- A parsed login response body.  A body that failed to parse, was
`null`, or was not an object is modelled as `none` at the use sites
(`login.js` treats all three the same way via
`!body || typeof body !== "object"`). -/
structure Body where
  retcode : Option JVal := none
  payload : Option Payload := none
deriving DecidableEq, Repr

/-- The value of `body.payload.sessiontoken`, `none` when the payload or
the field is absent. -/
def sessionTok (b : Body) : Option JVal :=
  match b.payload with
  | some pl => pl.sessiontoken
  | none => none

/-- The `isExpired` check of `login.js`: a missing or `0` expiry is
expired; otherwise expired once `now >= expiresAt - SKEW_SECONDS*1000`.
The `Number.isFinite` test of the source is always true in the integer
model. -/
def isExpired (expiresAtMillis : Option Int) (now : Int) : Bool :=
  match expiresAtMillis with
  | none => true
  | some e => if e = 0 then true else decide (now ≥ e - SKEW_SECONDS * 1000)

/-- The absolute-expiry candidate that `extractExpiry` selects:
`pl.expiresAt || pl.expireAt || pl.validUntil || null`. -/
def isoSelected (pl : Payload) : Option JVal :=
  jsOrNull (jsOr (jsOr pl.expiresAt pl.expireAt) pl.validUntil)

/-- The relative-ttl candidate that `extractExpiry` selects:
`pl.ttl || pl.expiresIn || null`. -/
def ttlSelected (pl : Payload) : Option JVal :=
  jsOrNull (jsOr pl.ttl pl.expiresIn)

/-- The parsed absolute expiry: the selected candidate must be a (truthy)
string and `Date.parse` must yield a finite time. -/
def isoParse (R : JsRuntime) (pl : Payload) : Option Int :=
  match isoSelected pl with
  | some (JVal.jstr s) => R.parseDate s
  | _ => none

/-- The parsed ttl: the selected candidate must be truthy and `Number` of
it must be finite. -/
def ttlNum (R : JsRuntime) (pl : Payload) : Option Int :=
  match ttlSelected pl with
  | some v => toNumber R v
  | none => none

/-- The `extractExpiry` function of `login.js`: absolute expiry field if
it parses, else `now` plus the ttl in seconds, else `now` plus the
default lifetime. -/
def extractExpiry (R : JsRuntime) (now : Int) (body : Option Body) : Int :=
  let pl : Payload :=
    match body with
    | some b =>
      match b.payload with
      | some p => p
      | none => {}
    | none => {}
  match isoParse R pl with
  | some t => t
  | none =>
    match ttlNum R pl with
    | some n => now + n * 1000
    | none => now + DEFAULT_TTL_SECONDS * 1000

/-- The three `Auth.*` context keys written by `login.js`:
`Auth.SessionToken`, `Auth.Retcode` and `Auth.ExpiresAt`. -/
structure Store where
  token : Option JVal := none
  retcode : Option JVal := none
  expiresAt : Option Int := none
deriving DecidableEq, Repr

/-- The `retcode == null ? null : retcode` normalisation of `saveToken`:
JavaScript loose equality sends both `undefined` and `null` to `null`. -/
def normRetcode : Option JVal → Option JVal
  | none => none
  | some JVal.jnull => none
  | some v => some v

/-- The `saveToken` function of `login.js`: stores `token || null`,
the normalised retcode, and `expiresAtMillis || null`. -/
def saveToken (token : Option JVal) (retcode : Option JVal)
    (expiresAtMillis : Option Int) : Store :=
  { token := if truthy token then token else none
    retcode := normRetcode retcode
    expiresAt :=
      match expiresAtMillis with
      | some e => if e = 0 then none else some e
      | none => none }

/-- The `clearToken` function of `login.js`. -/
def clearToken : Store :=
  saveToken none none none

/-- The result object returned by `doLogin`. -/
structure LoginOutcome where
  ok : Bool
  status : Int
  token : Option JVal := none
  expiresAt : Option Int := none
  retBody : Option Body := none
  message : String := ""
deriving DecidableEq, Repr

/-- The `doLogin` function of `login.js`, as a pure function of the HTTP
response `(status, body)` it receives and the current time.  Every branch
rewrites all three `Auth.*` keys, so the output store does not depend on
the previous one. -/
def doLogin (R : JsRuntime) (now : Int) (status : Int) (body : Option Body) :
    Store × LoginOutcome :=
  match body with
  | none =>
    (clearToken,
     { ok := false, status := status, retBody := none
       message := "http " ++ toString status })
  | some b =>
    if status ≠ 200 then
      (clearToken,
       { ok := false, status := status, retBody := some b
         message := "http " ++ toString status })
    else
      if b.retcode = some (JVal.jnum 0) ∧ truthy (sessionTok b) = true then
        let e := extractExpiry R now (some b)
        (saveToken (sessionTok b) b.retcode (some e),
         { ok := true, status := status, token := sessionTok b
           expiresAt := some e, retBody := some b })
      else
        (saveToken none b.retcode none,
         { ok := false, status := status, retBody := some b
           message := "retcode" })

/-- Outcome of `ensureToken`: either the saved token is reused with no
remote call, or a fresh `doLogin` outcome is produced. -/
inductive EnsureOutcome where
  | reused (token : Option JVal) (expiresAt : Option Int)
  | fresh (o : LoginOutcome)
deriving DecidableEq, Repr

/-- The reuse guard of `ensureToken`: `saved.token && !isExpired(saved.expiresAt)`. -/
def tokenUsable (st : Store) (now : Int) : Bool :=
  truthy st.token && !(isExpired st.expiresAt now)

/-- The `ensureToken` function of `login.js`, as a pure function also of
the HTTP response the login call would receive.  The third component
records whether a remote login call was issued. -/
def ensureToken (R : JsRuntime) (now : Int) (force : Bool) (st : Store)
    (status : Int) (body : Option Body) : Store × EnsureOutcome × Bool :=
  if !force && tokenUsable st now then
    (st, EnsureOutcome.reused st.token st.expiresAt, false)
  else
    let p := doLogin R now status body
    (p.1, EnsureOutcome.fresh p.2, true)

/-- The mutable state of a `LoginNode` instance that the logout/poll
claims are about: the `Auth.*` store, the poll interval timer, and the
`stopping` flag. -/
structure NodeState where
  store : Store
  timerRunning : Bool
  stopping : Bool
deriving DecidableEq, Repr

/-- The `action === "logout"` branch of the input handler: it calls
`clearToken()` and does not touch the poll timer. -/
def logoutAction (s : NodeState) : NodeState :=
  { s with store := clearToken }

/-- One tick of the `startPoll` interval callback: it only runs while the
timer is installed, returns early when `stopping` is set, and otherwise
runs `ensureToken` with `force: false`.  The second component is the
ensure outcome together with the remote-call flag, or `none` when the
tick did nothing. -/
def pollTick (R : JsRuntime) (now : Int) (status : Int) (body : Option Body)
    (s : NodeState) : NodeState × Option (EnsureOutcome × Bool) :=
  if s.timerRunning = false then (s, none)
  else if s.stopping then (s, none)
  else
    let r := ensureToken R now false s.store status body
    ({ s with store := r.1 }, some (r.2.1, r.2.2))

/-- Progress of one asynchronous `ensureToken` call: it either has not
run yet, or has issued the remote login call and is suspended awaiting
the response, or has finished with its outcome. -/
inductive TaskPhase where
  | ready
  | awaitLogin
  | finishedWith (r : EnsureOutcome)
deriving DecidableEq, Repr

/-- State of two concurrent `ensureToken(force:false)` calls over the
same store, counting how many remote login calls have been issued. -/
structure TwoCalls where
  store : Store
  t0 : TaskPhase
  t1 : TaskPhase
  loginCalls : Nat
deriving DecidableEq, Repr

/-- One cooperative step of a single `ensureToken(force:false)` call.
The only suspension point of `ensureToken` is the HTTP login call inside
`doLogin`; the freshness check runs synchronously against the current
store.  Returns the new store, the new phase, and the number of remote
login calls issued by this step. -/
def stepPhase (R : JsRuntime) (now : Int) (status : Int) (body : Option Body)
    (st : Store) (p : TaskPhase) : Store × TaskPhase × Nat :=
  match p with
  | TaskPhase.ready =>
    if tokenUsable st now then
      (st, TaskPhase.finishedWith (EnsureOutcome.reused st.token st.expiresAt), 0)
    else
      (st, TaskPhase.awaitLogin, 1)
  | TaskPhase.awaitLogin =>
    let q := doLogin R now status body
    (q.1, TaskPhase.finishedWith (EnsureOutcome.fresh q.2), 0)
  | TaskPhase.finishedWith r => (st, TaskPhase.finishedWith r, 0)

/-- Schedule one step of task 0 (`false`) or task 1 (`true`). -/
def stepTwo (R : JsRuntime) (now : Int) (status : Int) (body : Option Body)
    (s : TwoCalls) (i : Bool) : TwoCalls :=
  if i then
    let r := stepPhase R now status body s.store s.t1
    { s with store := r.1, t1 := r.2.1, loginCalls := s.loginCalls + r.2.2 }
  else
    let r := stepPhase R now status body s.store s.t0
    { s with store := r.1, t0 := r.2.1, loginCalls := s.loginCalls + r.2.2 }

/-- Run a whole interleaving schedule of the two calls. -/
def runTwo (R : JsRuntime) (now : Int) (status : Int) (body : Option Body)
    (s : TwoCalls) (sched : List Bool) : TwoCalls :=
  sched.foldl (stepTwo R now status body) s

/-- Both calls pending over a given store, no login call issued yet. -/
def initTwo (st : Store) : TwoCalls :=
  { store := st, t0 := TaskPhase.ready, t1 := TaskPhase.ready, loginCalls := 0 }

/-- A concrete runtime whose external parsers always fail, used for
closed evaluations that never reach them. -/
def jsRt0 : JsRuntime :=
  { parseDate := fun _ => none, parseNum := fun _ => none }

/-- A well-formed success response body: `retcode` 0 and a non-empty
session token. -/
def goodBody : Body :=
  { retcode := some (JVal.jnum 0)
    payload := some { sessiontoken := some (JVal.jstr "abc") } }

end Login

namespace Client

/-- The closed set of OPC UA data type names handled by
`opcua-client-nipper.js`. -/
inductive DataType where
  | Boolean
  | SByte
  | Byte
  | Int16
  | UInt16
  | Int32
  | UInt32
  | Float
  | Double
  | String
  | DateTime
deriving DecidableEq, Repr

/-- Result of the JavaScript property access `m[name] ?? null` on the
object literal inside `toDataType`: an own property yields one of the 11
data types; a name inherited from `Object.prototype` (such as
`"toString"` or `"constructor"`) yields a truthy value that is not a
data type, which `?? null` keeps; any other name yields `undefined`,
which `?? null` turns into `null`. -/
inductive TypeLookup where
  | found (dt : DataType)
  | inheritedJunk
  | nullish
deriving DecidableEq, Repr

/-- The own property names of `Object.prototype` that a string index on
an object literal reaches through the prototype chain, each bound to a
truthy non-DataType value (methods, or for `__proto__` the prototype
object itself). -/
def protoNames : List String :=
  ["constructor", "hasOwnProperty", "isPrototypeOf",
   "propertyIsEnumerable", "toLocaleString", "toString", "valueOf",
   "__proto__", "__defineGetter__", "__defineSetter__",
   "__lookupGetter__", "__lookupSetter__"]

/-- The `toDataType` lookup of `opcua-client-nipper.js`, `m[name] ?? null`
on an object literal: the 11 own names yield their data type; names
inherited from `Object.prototype` yield a truthy non-DataType value;
every other name yields `null`. -/
def toDataType (name : String) : TypeLookup :=
  if name = "Boolean" then TypeLookup.found DataType.Boolean
  else if name = "SByte" then TypeLookup.found DataType.SByte
  else if name = "Byte" then TypeLookup.found DataType.Byte
  else if name = "Int16" then TypeLookup.found DataType.Int16
  else if name = "UInt16" then TypeLookup.found DataType.UInt16
  else if name = "Int32" then TypeLookup.found DataType.Int32
  else if name = "UInt32" then TypeLookup.found DataType.UInt32
  else if name = "Float" then TypeLookup.found DataType.Float
  else if name = "Double" then TypeLookup.found DataType.Double
  else if name = "String" then TypeLookup.found DataType.String
  else if name = "DateTime" then TypeLookup.found DataType.DateTime
  else if name ∈ protoNames then TypeLookup.inheritedJunk
  else TypeLookup.nullish

/-- Runtime shapes of JavaScript values that can arrive as `msg.payload`
of a write request.  `vdate` models a `Date` instance (epoch ms),
`vother` any other non-primitive value with its `String(...)` rendering. -/
inductive JSVal where
  | vbool (b : Bool)
  | vnum (n : Int)
  | vstr (s : String)
  | vdate (ms : Int)
  | vnull
  | vundef
  | vother (rendered : String)
deriving DecidableEq, Repr

/-- JavaScript `String(v)` on the modelled values. -/
def jsToString : JSVal → String
  | JSVal.vbool b => if b then "true" else "false"
  | JSVal.vnum n => toString n
  | JSVal.vstr s => s
  | JSVal.vdate ms => "Date(" ++ toString ms ++ ")"
  | JSVal.vnull => "null"
  | JSVal.vundef => "undefined"
  | JSVal.vother r => r

/-- An `opcua.Variant` as built by the client node: a data type tag and
the value handed to the constructor. -/
structure Variant where
  dataType : DataType
  value : JSVal
deriving DecidableEq, Repr

/-- The `guessVariant` function: `Date` instances become `DateTime`,
booleans `Boolean`, numbers `Double`, and everything else `String` via
`String(val)`. -/
def guessVariant (val : JSVal) : Variant :=
  match val with
  | JSVal.vdate ms => { dataType := DataType.DateTime, value := JSVal.vdate ms }
  | JSVal.vbool b => { dataType := DataType.Boolean, value := JSVal.vbool b }
  | JSVal.vnum n => { dataType := DataType.Double, value := JSVal.vnum n }
  | v => { dataType := DataType.String, value := JSVal.vstr (jsToString v) }

/-- What the `toVariant` call produces: either a variant the client code
builds itself, or an invocation of the external `opcua.Variant`
constructor with a non-DataType `dataType` value inherited from
`Object.prototype`; what the library does with that value — raise or
build a garbage variant — is outside this repository. -/
inductive VariantBuild where
  | built (v : Variant)
  | junkDataType (typeName : String) (val : JSVal)
deriving DecidableEq, Repr

/-- The `toVariant` function: an empty or `"Auto"` type name falls back
to `guessVariant`; then `const dt = toDataType(dtypeName)` is tested with
`if (!dt)`, so a `null` result falls back to `guessVariant`, a found data
type wraps the value, and a truthy value inherited from
`Object.prototype` passes the `!dt` test and is handed to the
`opcua.Variant` constructor with no fallback. -/
def toVariant (val : JSVal) (dtypeName : String) : VariantBuild :=
  if dtypeName = "" ∨ dtypeName = "Auto" then VariantBuild.built (guessVariant val)
  else
    match toDataType dtypeName with
    | TypeLookup.nullish => VariantBuild.built (guessVariant val)
    | TypeLookup.found dt => VariantBuild.built { dataType := dt, value := val }
    | TypeLookup.inheritedJunk => VariantBuild.junkDataType dtypeName val

/-- A registered or synthesized point record, as built for `byTopic`
entries and for ad-hoc `rec` objects in the input handler.  Synthesized
records carry no sampling interval. -/
structure ItemRec where
  topic : String
  nodeId : String
  dataType : String
  sampling : Option Int := none
deriving DecidableEq, Repr

/-- The two lookup maps the client node builds from its configured
items. -/
structure Registry where
  byTopic : List (String × ItemRec)
  byNodeId : List (String × String)
deriving DecidableEq, Repr

/-- Lookup in the `byTopic` map. -/
def lookupTopic (reg : Registry) (k : String) : Option ItemRec :=
  match reg.byTopic.find? (fun p => p.1 == k) with
  | some p => some p.2
  | none => none

/-- Lookup in the `byNodeId` map. -/
def lookupNode (reg : Registry) (k : String) : Option String :=
  match reg.byNodeId.find? (fun p => p.1 == k) with
  | some p => some p.2
  | none => none

/-- The fields of an inbound message that the read/write dispatch code
inspects.  `none` models an absent field, and a non-string `msg.topic`,
`msg.nodeId` or `msg.datatype` behaves like an absent one at every use
site. -/
structure Msg where
  topic : Option String := none
  nodeId : Option String := none
  datatype : Option String := none
  payload : JSVal := JSVal.vundef
deriving DecidableEq, Repr

/-- Resolution via `msg.nodeId` in the write branch:
`byNodeId.get(nodeId) || nodeId` for the topic, `msg.datatype || "Auto"`
for the type. -/
def resolveByNodeWrite (reg : Registry) (m : Msg) : Option ItemRec :=
  match m.nodeId with
  | some nid =>
    if nid ≠ "" then
      let t :=
        match lookupNode reg nid with
        | some s => if s ≠ "" then s else nid
        | none => nid
      let dt :=
        match m.datatype with
        | some d => if d ≠ "" then d else "Auto"
        | none => "Auto"
      some { topic := t, nodeId := nid, dataType := dt }
    else none
  | none => none

/-- Resolution via `msg.nodeId` in the read branch: like the write
branch but with `dataType: "Auto"`. -/
def resolveByNodeRead (reg : Registry) (m : Msg) : Option ItemRec :=
  match m.nodeId with
  | some nid =>
    if nid ≠ "" then
      let t :=
        match lookupNode reg nid with
        | some s => if s ≠ "" then s else nid
        | none => nid
      some { topic := t, nodeId := nid, dataType := "Auto" }
    else none
  | none => none

/-- The `rec` resolution of the write branch: a truthy `msg.topic` found
in `byTopic` wins, else a string `msg.nodeId` synthesizes a record, else
`rec` stays `null`. -/
def resolveWrite (reg : Registry) (m : Msg) : Option ItemRec :=
  match m.topic with
  | some k =>
    if k ≠ "" ∧ (lookupTopic reg k).isSome then lookupTopic reg k
    else resolveByNodeWrite reg m
  | none => resolveByNodeWrite reg m

/-- The `rec` resolution of the read branch. -/
def resolveRead (reg : Registry) (m : Msg) : Option ItemRec :=
  match m.topic with
  | some k =>
    if k ≠ "" ∧ (lookupTopic reg k).isSome then lookupTopic reg k
    else resolveByNodeRead reg m
  | none => resolveByNodeRead reg m

/-- What the input handler does with a request: either it returns early
with only `done()` — no message is sent to the caller — or it issues the
remote operation and sends a response, or (write only) it reaches the
external `opcua.Variant` constructor with a non-DataType `dataType`
value, after which the behaviour is the library's. -/
inductive DispatchOutcome where
  | dropped
  | sentWrite (topic : String) (nodeId : String) (variant : Variant)
  | junkWrite (topic : String) (nodeId : String) (typeName : String) (val : JSVal)
  | sentRead (topic : String) (nodeId : String)
deriving DecidableEq, Repr

/-- The effective type name used for encoding a write:
`(typeof msg.datatype === "string" && msg.datatype) ? msg.datatype : rec.dataType`. -/
def effDtype (m : Msg) (rec : ItemRec) : String :=
  match m.datatype with
  | some d => if d ≠ "" then d else rec.dataType
  | none => rec.dataType

/-- The write branch of the input handler: early return when no record
resolves or no session is active (`if (!rec || !session)`), else build
the variant and issue the remote write. -/
def handleWrite (reg : Registry) (sessionActive : Bool) (m : Msg) :
    DispatchOutcome :=
  match resolveWrite reg m with
  | none => DispatchOutcome.dropped
  | some rec =>
    if sessionActive = false then DispatchOutcome.dropped
    else
      match toVariant m.payload (effDtype m rec) with
      | VariantBuild.built v => DispatchOutcome.sentWrite rec.topic rec.nodeId v
      | VariantBuild.junkDataType n v =>
        DispatchOutcome.junkWrite rec.topic rec.nodeId n v

/-- The read branch of the input handler. -/
def handleRead (reg : Registry) (sessionActive : Bool) (m : Msg) :
    DispatchOutcome :=
  match resolveRead reg m with
  | none => DispatchOutcome.dropped
  | some rec =>
    if sessionActive = false then DispatchOutcome.dropped
    else DispatchOutcome.sentRead rec.topic rec.nodeId

/-- The reconnect bookkeeping of a `ClientNode`: the `stopping` flag, the
`reconnectTimer` variable (`handle`), the number of live timer callbacks
in the runtime, and the number of connect attempts that passed the
`stopping` guard of `connectOnce`. -/
structure CState where
  stopping : Bool
  handle : Bool
  pendingTimers : Nat
  attempts : Nat
deriving DecidableEq, Repr

/-- The `scheduleReconnect` function: a no-op when stopping or when the
timer handle is already set; otherwise it installs one timer. -/
def scheduleReconnect (s : CState) : CState :=
  if s.stopping then s
  else if s.handle then s
  else { s with handle := true, pendingTimers := s.pendingTimers + 1 }

/-- The entry guard of `connectOnce`: it returns at once when `stopping`
is set, otherwise a connect attempt proceeds. -/
def connectOnceGuard (s : CState) : CState :=
  if s.stopping then s else { s with attempts := s.attempts + 1 }

/-- A pending reconnect timer elapsing: the callback nulls the handle,
runs `cleanup()`, and calls `connectOnce()` (whose own guard decides
whether an attempt happens). -/
def timerFire (s : CState) : CState :=
  if s.pendingTimers = 0 then s
  else connectOnceGuard
    { s with handle := false, pendingTimers := s.pendingTimers - 1 }

/-- The close handler of `ClientNode`: set `stopping`, then cancel the
pending reconnect timer if the handle is set (`clearTimeout`), then run
`cleanup()`. -/
def stopClient (s : CState) : CState :=
  let s1 := { s with stopping := true }
  if s1.handle then
    { s1 with handle := false, pendingTimers := s1.pendingTimers - 1 }
  else s1

/-- Events that drive the reconnect bookkeeping: any
`scheduleReconnect` trigger (subscription terminated, connection lost,
connect failure), a timer elapsing, or the node closing. -/
inductive CEvent where
  | schedule
  | fire
  | stopEv
deriving DecidableEq, Repr

/-- Apply one event. -/
def stepEvent (s : CState) (e : CEvent) : CState :=
  match e with
  | CEvent.schedule => scheduleReconnect s
  | CEvent.fire => timerFire s
  | CEvent.stopEv => stopClient s

/-- Apply a sequence of events. -/
def runEvents (s : CState) (es : List CEvent) : CState :=
  es.foldl stepEvent s

/-- The timer-handle invariant of the client node: the nullable
`reconnectTimer` variable holds a handle exactly when one timer callback
is live, and there is never more than one. -/
def timerInv (s : CState) : Prop :=
  s.pendingTimers = (if s.handle then 1 else 0)

/-- A client node with no configured items. -/
def emptyReg : Registry :=
  { byTopic := [], byNodeId := [] }

/-- A write request to the unconfigured topic `"ghost"` with no node id. -/
def ghostMsg : Msg :=
  { topic := some "ghost", payload := JSVal.vnum 1 }

/-- A registry with one configured point `t1`. -/
def sampleReg : Registry :=
  { byTopic := [("t1", { topic := "t1", nodeId := "ns=1;s=X", dataType := "Int32", sampling := some 200 })]
    byNodeId := [("ns=1;s=X", "t1")] }

end Client

/-- Any event applied to a stopped state with no live timers leaves it
stopped with no live timers and performs no connect attempt. -/
theorem stepEvent_stopped (s : Client.CState) (e : Client.CEvent)
    (h1 : s.stopping = true) (h2 : s.pendingTimers = 0) :
    (Client.stepEvent s e).stopping = true ∧
    (Client.stepEvent s e).pendingTimers = 0 ∧
    (Client.stepEvent s e).attempts = s.attempts := by
  cases e with
  | schedule => simp [Client.stepEvent, Client.scheduleReconnect, h1, h2]
  | fire => simp [Client.stepEvent, Client.timerFire, h1, h2]
  | stopEv =>
    cases hh : s.handle <;>
      simp [Client.stepEvent, Client.stopClient, h1, h2, hh]

/-- Event sequences starting from a stopped state with no live timers
never perform a connect attempt and never create a timer. -/
theorem runEvents_stopped (es : List Client.CEvent) (s : Client.CState)
    (h1 : s.stopping = true) (h2 : s.pendingTimers = 0) :
    (Client.runEvents s es).stopping = true ∧
    (Client.runEvents s es).pendingTimers = 0 ∧
    (Client.runEvents s es).attempts = s.attempts := by
  induction es generalizing s with
  | nil => exact ⟨h1, h2, rfl⟩
  | cons e es ih =>
    have hs := stepEvent_stopped s e h1 h2
    have hr := ih (Client.stepEvent s e) hs.1 hs.2.1
    exact ⟨hr.1, hr.2.1, hr.2.2.trans hs.2.2⟩

/-- C1: `scheduleReconnect` is idempotent while a reconnect is pending —
with the timer handle set any further call is a no-op; from a quiescent
running state two calls in succession equal a single call and install
exactly one pending timer, and when the delay then elapses exactly one
reconnect attempt results, with no timer left over. -/
theorem scheduleReconnect_idempotent (s s0 : Client.CState)
    (hpend : s.handle = true)
    (h1 : s0.stopping = false) (h2 : s0.handle = false)
    (h3 : s0.pendingTimers = 0) :
    Client.scheduleReconnect s = s ∧
    Client.scheduleReconnect (Client.scheduleReconnect s0) =
      Client.scheduleReconnect s0 ∧
    (Client.scheduleReconnect (Client.scheduleReconnect s0)).pendingTimers = 1 ∧
    (Client.runEvents s0 [Client.CEvent.schedule, Client.CEvent.schedule,
        Client.CEvent.fire]).attempts = s0.attempts + 1 ∧
    (Client.runEvents s0 [Client.CEvent.schedule, Client.CEvent.schedule,
        Client.CEvent.fire]).pendingTimers = 0 := by
  refine ⟨?_, ?_, ?_, ?_, ?_⟩ <;>
    simp [Client.scheduleReconnect, Client.runEvents, Client.stepEvent,
      Client.timerFire, Client.connectOnceGuard, hpend, h1, h2, h3, List.foldl]

/-- Witness for C1 at a concrete pending state and a concrete quiescent
state. -/
theorem scheduleReconnect_idempotent_witness :
    ({ stopping := false, handle := true, pendingTimers := 1, attempts := 0 } :
        Client.CState).handle = true ∧
    (Client.scheduleReconnect
        { stopping := false, handle := true, pendingTimers := 1, attempts := 0 } =
      { stopping := false, handle := true, pendingTimers := 1, attempts := 0 } ∧
     Client.scheduleReconnect (Client.scheduleReconnect
        { stopping := false, handle := false, pendingTimers := 0, attempts := 0 }) =
      Client.scheduleReconnect
        { stopping := false, handle := false, pendingTimers := 0, attempts := 0 } ∧
     (Client.scheduleReconnect (Client.scheduleReconnect
        { stopping := false, handle := false, pendingTimers := 0, attempts := 0 })).pendingTimers = 1 ∧
     (Client.runEvents
        { stopping := false, handle := false, pendingTimers := 0, attempts := 0 }
        [Client.CEvent.schedule, Client.CEvent.schedule,
         Client.CEvent.fire]).attempts = 0 + 1 ∧
     (Client.runEvents
        { stopping := false, handle := false, pendingTimers := 0, attempts := 0 }
        [Client.CEvent.schedule, Client.CEvent.schedule,
         Client.CEvent.fire]).pendingTimers = 0) :=
  ⟨rfl, scheduleReconnect_idempotent _ _ rfl rfl rfl rfl⟩

/-- C9: terminal shutdown sets the stopping flag and cancels the pending
reconnect timer; afterwards no sequence of reconnect triggers, timer
callbacks or further close events ever performs a connect attempt or
installs a timer. -/
theorem stop_terminal (s : Client.CState) (hinv : Client.timerInv s)
    (es : List Client.CEvent) :
    (Client.stopClient s).stopping = true ∧
    (Client.runEvents (Client.stopClient s) es).stopping = true ∧
    (Client.runEvents (Client.stopClient s) es).pendingTimers = 0 ∧
    (Client.runEvents (Client.stopClient s) es).attempts = s.attempts := by
  unfold Client.timerInv at hinv
  have h1 : (Client.stopClient s).stopping = true := by
    cases hh : s.handle <;> simp [Client.stopClient, hh]
  have h2 : (Client.stopClient s).pendingTimers = 0 := by
    cases hh : s.handle <;> simp [Client.stopClient, hh, hinv]
  have h3 : (Client.stopClient s).attempts = s.attempts := by
    cases hh : s.handle <;> simp [Client.stopClient, hh]
  have hr := runEvents_stopped es (Client.stopClient s) h1 h2
  exact ⟨h1, hr.1, hr.2.1, hr.2.2.trans h3⟩

/-- Witness for C9 at a concrete active state with a pending timer and a
concrete post-shutdown event barrage. -/
theorem stop_terminal_witness :
    Client.timerInv
      { stopping := false, handle := true, pendingTimers := 1, attempts := 5 } ∧
    ((Client.stopClient
        { stopping := false, handle := true, pendingTimers := 1, attempts := 5 }).stopping = true ∧
     (Client.runEvents (Client.stopClient
        { stopping := false, handle := true, pendingTimers := 1, attempts := 5 })
        [Client.CEvent.schedule, Client.CEvent.fire, Client.CEvent.stopEv,
         Client.CEvent.schedule, Client.CEvent.fire]).stopping = true ∧
     (Client.runEvents (Client.stopClient
        { stopping := false, handle := true, pendingTimers := 1, attempts := 5 })
        [Client.CEvent.schedule, Client.CEvent.fire, Client.CEvent.stopEv,
         Client.CEvent.schedule, Client.CEvent.fire]).pendingTimers = 0 ∧
     (Client.runEvents (Client.stopClient
        { stopping := false, handle := true, pendingTimers := 1, attempts := 5 })
        [Client.CEvent.schedule, Client.CEvent.fire, Client.CEvent.stopEv,
         Client.CEvent.schedule, Client.CEvent.fire]).attempts = 5) :=
  ⟨by simp [Client.timerInv], stop_terminal _ (by simp [Client.timerInv]) _⟩

/-- C2: the freshness policy of `ensureToken(force:false)` — with a
stored token whose expiry is `now + 120s` and the 60 s skew margin, a
call at `now + 30s` reuses the stored token with no remote login call,
and a call at `now + 65s` (when `now ≥ expiresAt − skew`) issues the
remote login and returns the fresh `doLogin` outcome. -/
theorem ensure_freshness_policy (R : JsRuntime) (now : Int) (tok rc : JVal)
    (status : Int) (body : Option Login.Body) (st : Login.Store)
    (hst : st = { token := some tok, retcode := some rc,
                  expiresAt := some (now + 120000) })
    (htok : truthy (some tok) = true) (hnz : now + 120000 ≠ 0) :
    Login.ensureToken R (now + 30000) false st status body =
      (st, Login.EnsureOutcome.reused (some tok) (some (now + 120000)), false) ∧
    Login.ensureToken R (now + 65000) false st status body =
      ((Login.doLogin R (now + 65000) status body).1,
       Login.EnsureOutcome.fresh (Login.doLogin R (now + 65000) status body).2,
       true) := by
  subst hst
  have h30 : Login.isExpired (some (now + 120000)) (now + 30000) = false := by
    simp only [Login.isExpired, Login.SKEW_SECONDS, if_neg hnz,
      decide_eq_false_iff_not]
    omega
  have h65 : Login.isExpired (some (now + 120000)) (now + 65000) = true := by
    simp only [Login.isExpired, Login.SKEW_SECONDS, if_neg hnz,
      decide_eq_true_eq]
    omega
  constructor
  · simp [Login.ensureToken, Login.tokenUsable, htok, h30]
  · simp [Login.ensureToken, Login.tokenUsable, h65]

/-- Witness for C2 at `now = 1000000` with token `"abc"`. -/
theorem ensure_freshness_policy_witness :
    ((⟨some (JVal.jstr "abc"), some (JVal.jnum 0), some (1000000 + 120000)⟩ :
        Login.Store) =
      { token := some (JVal.jstr "abc"), retcode := some (JVal.jnum 0),
        expiresAt := some (1000000 + 120000) } ∧
     truthy (some (JVal.jstr "abc")) = true ∧ (1000000 : Int) + 120000 ≠ 0) ∧
    (Login.ensureToken Login.jsRt0 (1000000 + 30000) false
        ⟨some (JVal.jstr "abc"), some (JVal.jnum 0), some (1000000 + 120000)⟩
        200 (some Login.goodBody) =
      (⟨some (JVal.jstr "abc"), some (JVal.jnum 0), some (1000000 + 120000)⟩,
       Login.EnsureOutcome.reused (some (JVal.jstr "abc")) (some (1000000 + 120000)),
       false) ∧
     Login.ensureToken Login.jsRt0 (1000000 + 65000) false
        ⟨some (JVal.jstr "abc"), some (JVal.jnum 0), some (1000000 + 120000)⟩
        200 (some Login.goodBody) =
      ((Login.doLogin Login.jsRt0 (1000000 + 65000) 200 (some Login.goodBody)).1,
       Login.EnsureOutcome.fresh
         (Login.doLogin Login.jsRt0 (1000000 + 65000) 200 (some Login.goodBody)).2,
       true)) :=
  ⟨⟨rfl, by decide, by decide⟩,
   ensure_freshness_policy Login.jsRt0 1000000 (JVal.jstr "abc") (JVal.jnum 0)
     200 (some Login.goodBody) _ rfl (by decide) (by decide)⟩

/-- C3 counterexample: with an empty store (expired/absent token) and the
interleaving in which both concurrent `ensureToken(force:false)` calls
run their freshness check before either login response arrives, the
number of remote login calls issued is not one — `ensureToken` has no
in-flight guard. -/
theorem ensure_two_concurrent_counterexample :
    ¬ ((Login.runTwo Login.jsRt0 0 200 (some Login.goodBody)
        (Login.initTwo {}) [false, true, false, true]).loginCalls = 1) := by
  decide

/-- C3 amended: whenever the stored token is absent or expired, the
interleaving in which both concurrent `ensureToken(force:false)` calls
pass the freshness check before either response arrives issues exactly
two remote login calls, and each caller finishes with the fresh outcome
of its own call. -/
theorem ensure_two_concurrent_two_logins (R : JsRuntime) (now status : Int)
    (body : Option Login.Body) (st : Login.Store)
    (h : Login.tokenUsable st now = false) :
    (Login.runTwo R now status body (Login.initTwo st)
        [false, true, false, true]).loginCalls = 2 ∧
    (Login.runTwo R now status body (Login.initTwo st)
        [false, true, false, true]).t0 =
      Login.TaskPhase.finishedWith
        (Login.EnsureOutcome.fresh (Login.doLogin R now status body).2) ∧
    (Login.runTwo R now status body (Login.initTwo st)
        [false, true, false, true]).t1 =
      Login.TaskPhase.finishedWith
        (Login.EnsureOutcome.fresh (Login.doLogin R now status body).2) := by
  simp [Login.runTwo, Login.initTwo, Login.stepTwo, Login.stepPhase, h,
    List.foldl]

/-- Witness for the amended C3 at the empty store. -/
theorem ensure_two_concurrent_two_logins_witness :
    Login.tokenUsable {} 0 = false ∧
    ((Login.runTwo Login.jsRt0 0 200 (some Login.goodBody)
        (Login.initTwo {}) [false, true, false, true]).loginCalls = 2 ∧
     (Login.runTwo Login.jsRt0 0 200 (some Login.goodBody)
        (Login.initTwo {}) [false, true, false, true]).t0 =
      Login.TaskPhase.finishedWith
        (Login.EnsureOutcome.fresh
          (Login.doLogin Login.jsRt0 0 200 (some Login.goodBody)).2) ∧
     (Login.runTwo Login.jsRt0 0 200 (some Login.goodBody)
        (Login.initTwo {}) [false, true, false, true]).t1 =
      Login.TaskPhase.finishedWith
        (Login.EnsureOutcome.fresh
          (Login.doLogin Login.jsRt0 0 200 (some Login.goodBody)).2)) :=
  ⟨by decide,
   ensure_two_concurrent_two_logins Login.jsRt0 0 200 (some Login.goodBody) {}
     (by decide)⟩

/-- A successful `doLogin` stores a truthy session token. -/
theorem doLogin_ok_token_truthy (R : JsRuntime) (now status : Int)
    (body : Option Login.Body)
    (h : (Login.doLogin R now status body).2.ok = true) :
    truthy (Login.doLogin R now status body).1.token = true := by
  cases body with
  | none => simp [Login.doLogin] at h
  | some b =>
    by_cases hs : status = 200
    · subst hs
      by_cases hc : b.retcode = some (JVal.jnum 0) ∧
          truthy (Login.sessionTok b) = true
      · simp [Login.doLogin, hc, Login.saveToken, hc.2]
      · simp [Login.doLogin, hc] at h
    · simp [Login.doLogin, hs] at h

/-- C10: the logout action clears all three stored fields but leaves the
background poll timer running, and the next poll tick then finds no
usable token, issues a remote login, and — when that login succeeds —
re-acquires a truthy stored token without any caller request. -/
theorem logout_keeps_poll (R : JsRuntime) (now status : Int)
    (body : Option Login.Body) (s : Login.NodeState)
    (htimer : s.timerRunning = true) (hstop : s.stopping = false)
    (hok : (Login.doLogin R now status body).2.ok = true) :
    (Login.logoutAction s).store =
      { token := none, retcode := none, expiresAt := none } ∧
    (Login.logoutAction s).timerRunning = true ∧
    (Login.pollTick R now status body (Login.logoutAction s)).2 =
      some (Login.EnsureOutcome.fresh (Login.doLogin R now status body).2,
        true) ∧
    truthy (Login.pollTick R now status body
      (Login.logoutAction s)).1.store.token = true := by
  have htt := doLogin_ok_token_truthy R now status body hok
  refine ⟨rfl, htimer, ?_, ?_⟩ <;>
    simp [Login.pollTick, Login.logoutAction, htimer, hstop,
      Login.ensureToken, Login.tokenUsable, Login.clearToken,
      Login.saveToken, htt, show truthy none = false from rfl]

/-- Witness for C10 at a concrete running node and the canonical success
response. -/
theorem logout_keeps_poll_witness :
    ((⟨⟨some (JVal.jstr "old"), some (JVal.jnum 0), some 99⟩, true, false⟩ :
        Login.NodeState).timerRunning = true ∧
     (⟨⟨some (JVal.jstr "old"), some (JVal.jnum 0), some 99⟩, true, false⟩ :
        Login.NodeState).stopping = false ∧
     (Login.doLogin Login.jsRt0 0 200 (some Login.goodBody)).2.ok = true) ∧
    ((Login.logoutAction
        ⟨⟨some (JVal.jstr "old"), some (JVal.jnum 0), some 99⟩, true, false⟩).store =
      { token := none, retcode := none, expiresAt := none } ∧
     (Login.logoutAction
        ⟨⟨some (JVal.jstr "old"), some (JVal.jnum 0), some 99⟩, true, false⟩).timerRunning = true ∧
     (Login.pollTick Login.jsRt0 0 200 (some Login.goodBody)
        (Login.logoutAction
          ⟨⟨some (JVal.jstr "old"), some (JVal.jnum 0), some 99⟩, true, false⟩)).2 =
      some (Login.EnsureOutcome.fresh
        (Login.doLogin Login.jsRt0 0 200 (some Login.goodBody)).2, true) ∧
     truthy (Login.pollTick Login.jsRt0 0 200 (some Login.goodBody)
        (Login.logoutAction
          ⟨⟨some (JVal.jstr "old"), some (JVal.jnum 0), some 99⟩, true, false⟩)).1.store.token = true) :=
  ⟨⟨rfl, rfl, by decide⟩,
   logout_keeps_poll Login.jsRt0 0 200 (some Login.goodBody)
     ⟨⟨some (JVal.jstr "old"), some (JVal.jnum 0), some 99⟩, true, false⟩
     rfl rfl (by decide)⟩

/-- C4 counterexample: a write request for the unconfigured topic
`"ghost"` (no node id) on a node with no registered points and an active
session is silently dropped — only `done()` runs, no response of any kind
reaches the caller — so no explicit configuration-error response is
returned. -/
theorem write_ghost_counterexample :
    Client.handleWrite Client.emptyReg true Client.ghostMsg =
      Client.DispatchOutcome.dropped := by
  decide

/-- C4 amended: every read or write request whose topic/node id resolves
to no registered point and cannot be synthesized is silently dropped
(`done()` only, no caller-visible response), regardless of session
state. -/
theorem unresolved_request_dropped (reg : Client.Registry)
    (sessionActive : Bool) (m : Client.Msg)
    (hw : Client.resolveWrite reg m = none)
    (hr : Client.resolveRead reg m = none) :
    Client.handleWrite reg sessionActive m = Client.DispatchOutcome.dropped ∧
    Client.handleRead reg sessionActive m = Client.DispatchOutcome.dropped := by
  simp [Client.handleWrite, Client.handleRead, hw, hr]

/-- Witness for the amended C4 at the `"ghost"` request. -/
theorem unresolved_request_dropped_witness :
    (Client.resolveWrite Client.emptyReg Client.ghostMsg = none ∧
     Client.resolveRead Client.emptyReg Client.ghostMsg = none) ∧
    (Client.handleWrite Client.emptyReg true Client.ghostMsg =
       Client.DispatchOutcome.dropped ∧
     Client.handleRead Client.emptyReg true Client.ghostMsg =
       Client.DispatchOutcome.dropped) :=
  ⟨⟨by decide, by decide⟩,
   unresolved_request_dropped Client.emptyReg true Client.ghostMsg
     (by decide) (by decide)⟩

/-- C5 counterexample: at transport status 201 — a 2xx status — with a
body carrying `retcode` 0 and the non-empty session token `"abc"`,
`doLogin` nevertheless fails, so success is not equivalent to
"2xx and retcode 0 and non-empty token". -/
theorem login_2xx_counterexample :
    ¬ (((Login.doLogin Login.jsRt0 0 201 (some Login.goodBody)).2.ok = true) ↔
       (200 ≤ (201 : Int) ∧ (201 : Int) < 300 ∧
        Login.goodBody.retcode = some (JVal.jnum 0) ∧
        truthy (Login.sessionTok Login.goodBody) = true)) := by
  decide

/-- C5 amended: `doLogin` succeeds if and only if the transport status is
exactly 200, the body parsed to an object, its `retcode` field is the
number 0, and its payload carries a truthy (non-empty) session token;
any other status — including other 2xx statuses — or shape fails. -/
theorem doLogin_ok_iff (R : JsRuntime) (now status : Int)
    (body : Option Login.Body) :
    (Login.doLogin R now status body).2.ok = true ↔
      status = 200 ∧ ∃ b, body = some b ∧
        b.retcode = some (JVal.jnum 0) ∧
        truthy (Login.sessionTok b) = true := by
  cases body with
  | none => simp [Login.doLogin]
  | some b =>
    by_cases hs : status = 200
    · subst hs
      by_cases hc : b.retcode = some (JVal.jnum 0) ∧
          truthy (Login.sessionTok b) = true
      · simp [Login.doLogin, hc]
      · simp only [Login.doLogin, ne_eq, not_true_eq_false, if_false,
          if_neg hc]
        simp [hc]
    · simp [Login.doLogin, hs]

/-- C6: the expiry stored on a successful login follows the precedence of
`extractExpiry` — the selected absolute expiry field wins when it is a
string that parses as a date-time; otherwise a finite relative ttl in
seconds is added to the current time; otherwise the 30-minute default is
used — and the successful `doLogin` outcome records exactly this
value. -/
theorem extractExpiry_precedence (R : JsRuntime) (now : Int)
    (b : Login.Body) (pl : Login.Payload) (hpl : b.payload = some pl) :
    (∀ s t, Login.isoSelected pl = some (JVal.jstr s) →
        R.parseDate s = some t →
        Login.extractExpiry R now (some b) = t) ∧
    (Login.isoParse R pl = none →
      ∀ n, Login.ttlNum R pl = some n →
        Login.extractExpiry R now (some b) = now + n * 1000) ∧
    (Login.isoParse R pl = none → Login.ttlNum R pl = none →
      Login.extractExpiry R now (some b) =
        now + Login.DEFAULT_TTL_SECONDS * 1000) ∧
    ((Login.doLogin R now 200 (some b)).2.ok = true →
      (Login.doLogin R now 200 (some b)).2.expiresAt =
        some (Login.extractExpiry R now (some b))) := by
  refine ⟨?_, ?_, ?_, ?_⟩
  · intro s t hsel hparse
    simp [Login.extractExpiry, Login.isoParse, hpl, hsel, hparse]
  · intro hiso n httl
    simp [Login.extractExpiry, hpl, hiso, httl]
  · intro hiso httl
    simp [Login.extractExpiry, hpl, hiso, httl]
  · intro hok
    by_cases hc : b.retcode = some (JVal.jnum 0) ∧
        truthy (Login.sessionTok b) = true
    · simp [Login.doLogin, hc]
    · simp [Login.doLogin, hc] at hok

/-- Witness for C6 at a concrete body whose payload carries a 60-second
ttl and no absolute expiry field. -/
theorem extractExpiry_precedence_witness :
    (({ retcode := some (JVal.jnum 0),
        payload := some { ttl := some (JVal.jnum 60) } } :
          Login.Body).payload =
      some { ttl := some (JVal.jnum 60) }) ∧
    ((∀ s t, Login.isoSelected { ttl := some (JVal.jnum 60) } =
          some (JVal.jstr s) →
        Login.jsRt0.parseDate s = some t →
        Login.extractExpiry Login.jsRt0 5
          (some { retcode := some (JVal.jnum 0),
                  payload := some { ttl := some (JVal.jnum 60) } }) = t) ∧
     (Login.isoParse Login.jsRt0 { ttl := some (JVal.jnum 60) } = none →
       ∀ n, Login.ttlNum Login.jsRt0 { ttl := some (JVal.jnum 60) } = some n →
         Login.extractExpiry Login.jsRt0 5
           (some { retcode := some (JVal.jnum 0),
                   payload := some { ttl := some (JVal.jnum 60) } }) =
           5 + n * 1000) ∧
     (Login.isoParse Login.jsRt0 { ttl := some (JVal.jnum 60) } = none →
       Login.ttlNum Login.jsRt0 { ttl := some (JVal.jnum 60) } = none →
       Login.extractExpiry Login.jsRt0 5
         (some { retcode := some (JVal.jnum 0),
                 payload := some { ttl := some (JVal.jnum 60) } }) =
         5 + Login.DEFAULT_TTL_SECONDS * 1000) ∧
     ((Login.doLogin Login.jsRt0 5 200
         (some { retcode := some (JVal.jnum 0),
                 payload := some { ttl := some (JVal.jnum 60) } })).2.ok = true →
       (Login.doLogin Login.jsRt0 5 200
         (some { retcode := some (JVal.jnum 0),
                 payload := some { ttl := some (JVal.jnum 60) } })).2.expiresAt =
         some (Login.extractExpiry Login.jsRt0 5
           (some { retcode := some (JVal.jnum 0),
                   payload := some { ttl := some (JVal.jnum 60) } })))) :=
  ⟨rfl,
   extractExpiry_precedence Login.jsRt0 5
     { retcode := some (JVal.jnum 0),
       payload := some { ttl := some (JVal.jnum 60) } }
     { ttl := some (JVal.jnum 60) } rfl⟩

/-- C7: every failing `doLogin` — transport failure or bad return code —
clears the stored token value and expiry to null, while the stored
return code is the one obtained from the response when one was (status
200 with a parsed object body), and null when the transport failed
before a return code was obtained. -/
theorem doLogin_failure_clears (R : JsRuntime) (now status : Int)
    (body : Option Login.Body)
    (h : (Login.doLogin R now status body).2.ok = false) :
    (Login.doLogin R now status body).1.token = none ∧
    (Login.doLogin R now status body).1.expiresAt = none ∧
    (Login.doLogin R now status body).1.retcode =
      (match body with
       | some b => if status = 200 then Login.normRetcode b.retcode else none
       | none => none) := by
  cases body with
  | none =>
    simp [Login.doLogin, Login.clearToken, Login.saveToken,
      Login.normRetcode]
  | some b =>
    by_cases hs : status = 200
    · subst hs
      by_cases hc : b.retcode = some (JVal.jnum 0) ∧
          truthy (Login.sessionTok b) = true
      · simp [Login.doLogin, hc] at h
      · simp [Login.doLogin, hc, Login.saveToken,
          show truthy none = false from rfl]
    · simp [Login.doLogin, hs, Login.clearToken, Login.saveToken,
        Login.normRetcode]

/-- Witness for C7 at a concrete retcode failure: status 200 with body
`retcode: 7` and no payload. -/
theorem doLogin_failure_clears_witness :
    (Login.doLogin Login.jsRt0 0 200
        (some { retcode := some (JVal.jnum 7) })).2.ok = false ∧
    ((Login.doLogin Login.jsRt0 0 200
        (some { retcode := some (JVal.jnum 7) })).1.token = none ∧
     (Login.doLogin Login.jsRt0 0 200
        (some { retcode := some (JVal.jnum 7) })).1.expiresAt = none ∧
     (Login.doLogin Login.jsRt0 0 200
        (some { retcode := some (JVal.jnum 7) })).1.retcode =
      (match (some { retcode := some (JVal.jnum 7) } : Option Login.Body) with
       | some b => if (200 : Int) = 200 then Login.normRetcode b.retcode else none
       | none => none)) :=
  ⟨by decide,
   doLogin_failure_clears Login.jsRt0 0 200
     (some { retcode := some (JVal.jnum 7) }) (by decide)⟩

/-- C8 counterexample: with the caller-supplied unknown type name
`"toString"` — an `Object.prototype` property name — the coercion does
not fall back to the inferred encoding: the object-literal lookup
returns an inherited truthy non-DataType value, `if (!dt)` does not
fire, and the write dispatch hands that value to the external
`opcua.Variant` constructor, so the coercion is not total-with-fallback
over all supplied type names. -/
theorem write_type_coercion_counterexample :
    ¬ (Client.toVariant (Client.JSVal.vnum 3) "toString" =
       Client.VariantBuild.built (Client.guessVariant (Client.JSVal.vnum 3))) ∧
    Client.handleWrite Client.sampleReg true
      { topic := some "t1", datatype := some "toString",
        payload := Client.JSVal.vnum 3 } =
      Client.DispatchOutcome.junkWrite "t1" "ns=1;s=X" "toString"
        (Client.JSVal.vnum 3) := by
  decide

/-- C8 amended: for every write whose record resolves, the dispatched
variant is built from the effective type name — the request-supplied
type when it is a non-empty string, else the point's configured type —
and an unknown type name falls back to `guessVariant` exactly when the
lookup yields `null`, which happens for every name that is not an
`Object.prototype` property name; for an inherited name such as
`"toString"` the non-DataType lookup result is passed to the external
`opcua.Variant` constructor with no fallback.  `guessVariant` itself
maps booleans to `Boolean`, numbers to `Double`, `Date` values to
`DateTime`, and everything else to `String` via `String(val)`. -/
theorem write_type_coercion_amended (reg : Client.Registry) (m : Client.Msg)
    (rec : Client.ItemRec) (val : Client.JSVal) (name junkName : String)
    (hres : Client.resolveWrite reg m = some rec)
    (hname : Client.toDataType name = Client.TypeLookup.nullish)
    (hjunk : Client.toDataType junkName = Client.TypeLookup.inheritedJunk) :
    Client.handleWrite reg true m =
      (match Client.toVariant m.payload (Client.effDtype m rec) with
       | Client.VariantBuild.built v =>
         Client.DispatchOutcome.sentWrite rec.topic rec.nodeId v
       | Client.VariantBuild.junkDataType n v =>
         Client.DispatchOutcome.junkWrite rec.topic rec.nodeId n v) ∧
    Client.toVariant val name =
      Client.VariantBuild.built (Client.guessVariant val) ∧
    Client.toVariant val junkName =
      Client.VariantBuild.junkDataType junkName val ∧
    (∀ d : String, d ≠ "" →
      Client.effDtype { m with datatype := some d } rec = d) ∧
    Client.effDtype { m with datatype := none } rec = rec.dataType ∧
    (∀ b : Bool, Client.guessVariant (Client.JSVal.vbool b) =
      { dataType := Client.DataType.Boolean, value := Client.JSVal.vbool b }) ∧
    (∀ n : Int, Client.guessVariant (Client.JSVal.vnum n) =
      { dataType := Client.DataType.Double, value := Client.JSVal.vnum n }) ∧
    (∀ ms : Int, Client.guessVariant (Client.JSVal.vdate ms) =
      { dataType := Client.DataType.DateTime, value := Client.JSVal.vdate ms }) ∧
    (∀ s : String, Client.guessVariant (Client.JSVal.vstr s) =
      { dataType := Client.DataType.String, value := Client.JSVal.vstr s }) ∧
    Client.guessVariant Client.JSVal.vnull =
      { dataType := Client.DataType.String, value := Client.JSVal.vstr "null" } := by
  refine ⟨?_, ?_, ?_, ?_, rfl, fun b => rfl, fun n => rfl, fun ms => rfl,
    fun s => rfl, rfl⟩
  · simp [Client.handleWrite, hres]
  · by_cases hd : name = "" ∨ name = "Auto"
    · simp [Client.toVariant, hd]
    · simp [Client.toVariant, hd, hname]
  · by_cases hd : junkName = "" ∨ junkName = "Auto"
    · rcases hd with hd | hd <;> rw [hd] at hjunk <;> simp [Client.toDataType,
        Client.protoNames] at hjunk
    · simp [Client.toVariant, hd, hjunk]
  · intro d hd
    simp [Client.effDtype, hd]

/-- Witness for the amended C8 at the configured point `t1` with a
numeric payload, the plainly unknown type name `"Nope"`, and the
inherited name `"toString"`. -/
theorem write_type_coercion_amended_witness :
    (Client.resolveWrite Client.sampleReg
        { topic := some "t1", payload := Client.JSVal.vnum 3 } =
      some { topic := "t1", nodeId := "ns=1;s=X", dataType := "Int32",
             sampling := some 200 } ∧
     Client.toDataType "Nope" = Client.TypeLookup.nullish ∧
     Client.toDataType "toString" = Client.TypeLookup.inheritedJunk) ∧
    (Client.handleWrite Client.sampleReg true
        { topic := some "t1", payload := Client.JSVal.vnum 3 } =
      (match Client.toVariant
          ({ topic := some "t1", payload := Client.JSVal.vnum 3 } :
            Client.Msg).payload
          (Client.effDtype
            { topic := some "t1", payload := Client.JSVal.vnum 3 }
            { topic := "t1", nodeId := "ns=1;s=X", dataType := "Int32",
              sampling := some 200 }) with
       | Client.VariantBuild.built v =>
         Client.DispatchOutcome.sentWrite
           ({ topic := "t1", nodeId := "ns=1;s=X", dataType := "Int32",
              sampling := some 200 } : Client.ItemRec).topic
           ({ topic := "t1", nodeId := "ns=1;s=X", dataType := "Int32",
              sampling := some 200 } : Client.ItemRec).nodeId v
       | Client.VariantBuild.junkDataType n v =>
         Client.DispatchOutcome.junkWrite
           ({ topic := "t1", nodeId := "ns=1;s=X", dataType := "Int32",
              sampling := some 200 } : Client.ItemRec).topic
           ({ topic := "t1", nodeId := "ns=1;s=X", dataType := "Int32",
              sampling := some 200 } : Client.ItemRec).nodeId n v) ∧
     Client.toVariant (Client.JSVal.vbool true) "Nope" =
       Client.VariantBuild.built (Client.guessVariant (Client.JSVal.vbool true)) ∧
     Client.toVariant (Client.JSVal.vbool true) "toString" =
       Client.VariantBuild.junkDataType "toString" (Client.JSVal.vbool true) ∧
     (∀ d : String, d ≠ "" →
       Client.effDtype
         { ({ topic := some "t1", payload := Client.JSVal.vnum 3 } :
             Client.Msg) with datatype := some d }
         { topic := "t1", nodeId := "ns=1;s=X", dataType := "Int32",
           sampling := some 200 } = d) ∧
     Client.effDtype
       { ({ topic := some "t1", payload := Client.JSVal.vnum 3 } :
           Client.Msg) with datatype := none }
       { topic := "t1", nodeId := "ns=1;s=X", dataType := "Int32",
         sampling := some 200 } =
       ({ topic := "t1", nodeId := "ns=1;s=X", dataType := "Int32",
          sampling := some 200 } : Client.ItemRec).dataType ∧
     (∀ b : Bool, Client.guessVariant (Client.JSVal.vbool b) =
       { dataType := Client.DataType.Boolean, value := Client.JSVal.vbool b }) ∧
     (∀ n : Int, Client.guessVariant (Client.JSVal.vnum n) =
       { dataType := Client.DataType.Double, value := Client.JSVal.vnum n }) ∧
     (∀ ms : Int, Client.guessVariant (Client.JSVal.vdate ms) =
       { dataType := Client.DataType.DateTime, value := Client.JSVal.vdate ms }) ∧
     (∀ s : String, Client.guessVariant (Client.JSVal.vstr s) =
       { dataType := Client.DataType.String, value := Client.JSVal.vstr s }) ∧
     Client.guessVariant Client.JSVal.vnull =
       { dataType := Client.DataType.String, value := Client.JSVal.vstr "null" }) :=
  ⟨⟨by decide, by decide, by decide⟩,
   write_type_coercion_amended Client.sampleReg
     { topic := some "t1", payload := Client.JSVal.vnum 3 }
     { topic := "t1", nodeId := "ns=1;s=X", dataType := "Int32",
       sampling := some 200 }
     (Client.JSVal.vbool true) "Nope" "toString"
     (by decide) (by decide) (by decide)⟩

end OpcRepo
